import Mathlib

/-!
A Lean model of the `sber-code-beauty-contest` repository: `history.py`
(asset price history sources) and `trading-simulation.py`
(`PortfolioSimulator`).

Modelling conventions:
* Python `Decimal` amounts are modelled as exact rationals (`Dec := Rat`);
  the spec itself describes prices as exact decimal arithmetic.
* Calendar dates are proleptic Gregorian ordinals (`Nat`), exactly
  `datetime.date.toordinal`, so `timedelta(days=k)` is `+ k` and
  `date(2023, 9, 10)` is `738773`.
* A Python `dict` / `defaultdict(int)` is an insertion-ordered association
  list; `defaultdict.__getitem__` inserts a `0` entry for a missing key.
* Raising an exception is returning `Except.error`; every mutation in the
  source happens only after all checks, so an error leaves the caller with
  the untouched pre-state.
-/

/-- Exact decimal amounts (Python `Decimal`) modelled as rationals. -/
abbrev Dec := Rat

/-- Calendar dates as proleptic Gregorian ordinals (`date.toordinal`). -/
abbrev PyDate := Nat

/-- The ordinal of `date(2023, 9, 10)`, the first date of the replayed
historical table in `history.py`. -/
def firstRealDate : PyDate := 738773

/-- The `AssetPrice` dataclass of `history.py`: the quoted price of each asset,
with the dataclass's default prices. -/
structure AssetPrice where
  LKOH : Dec := 5896
  SBER : Dec := 250
deriving DecidableEq, Repr

/-- Python `AssetPrice()`: the snapshot built from the dataclass defaults. -/
def defaultAssetPrice : AssetPrice := {}

/-- The keys of `AssetPrice.__dataclass_fields__` in declaration order. -/
def assetFields : List String := ["LKOH", "SBER"]

/-- Python `getattr(assetPrice, name)` restricted to the dataclass's price
fields: `some` price for a declared field, `none` otherwise.  This is the
simplified lookup used where only field names can be reached; Python's
`getattr` also succeeds on non-field object attributes (`__class__`,
methods, ...), which `getattrFull` below models — there the lookup
returns a non-price object and `buy` crashes with an uncaught
`TypeError` instead of `WrongAssetName`. -/
def AssetPrice.get (p : AssetPrice) : String → Option Dec
  | "LKOH" => some p.LKOH
  | "SBER" => some p.SBER
  | _ => none

/-- A Python dict from asset name to held quantity, as an insertion-ordered
association list (keys unique by construction of the operations below). -/
abbrev PyDict := List (String × Int)

/-- Python `key in d`. -/
def dContains (d : PyDict) (k : String) : Bool :=
  d.any (fun p => p.1 == k)

/-- The value stored for `k`, if any. -/
def dFind (d : PyDict) (k : String) : Option Int :=
  (d.find? (fun p => p.1 == k)).map (fun p => p.2)

/-- Python `defaultdict(int).__getitem__`: the stored value, or `0` after
inserting a fresh `(k, 0)` entry when `k` is missing. -/
def dGet (d : PyDict) (k : String) : Int × PyDict :=
  match dFind d k with
  | some v => (v, d)
  | none => (0, d ++ [(k, 0)])

/-- Python `d[k] = v`: overwrite in place, or append a new entry. -/
def dSet (d : PyDict) (k : String) (v : Int) : PyDict :=
  if dContains d k then d.map (fun p => if p.1 == k then (k, v) else p)
  else d ++ [(k, v)]

/-- The exception classes of `trading-simulation.py`, plus the source
iterator's `StopIteration`.  The spec renames them by context:
`NotEnoughCash` at construction is `InvalidInitialCash`, at `buy` it is
`InsufficientCash`; `WrongAssetName` is `UnknownAsset`; `NotEnoughAsset` is
`InsufficientHoldings`; `StopIteration` surfaces as `EndOfHistory`. -/
inductive SimError where
  | notEnoughCash
  | wrongAssetName
  | notEnoughAsset
  | endOfHistory
deriving DecidableEq, Repr

/-- The mutable state of a `PortfolioSimulator`: cash, the holdings
defaultdict, the remaining entries of the history iterator (`self.days`),
the current date and prices, and the captured initial portfolio value. -/
structure PortfolioSimulator where
  cash : Dec
  assets : PyDict
  days : List (PyDate × AssetPrice)
  current_date : PyDate
  current_prices : AssetPrice
  initial_value : Dec
deriving DecidableEq, Repr

/-- Method `next_day`: pull the next `(date, prices)` pair from the history
iterator, or fail (`StopIteration` / `EndOfHistory`) when it is spent. -/
def PortfolioSimulator.next_day (s : PortfolioSimulator) :
    Except SimError PortfolioSimulator :=
  match s.days with
  | [] => .error .endOfHistory
  | (d, p) :: rest =>
      .ok { s with days := rest, current_date := d, current_prices := p }

/-- Method `buy(asset, amount)`: resolve the price by attribute lookup
(`WrongAssetName` when absent), fail with `NotEnoughCash` when
`cash < price * amount`, else pay the cost and add the amount to the
holdings (the defaultdict read inserts a `0` entry first). -/
def PortfolioSimulator.buy (s : PortfolioSimulator) (asset : String)
    (amount : Int) : Except SimError PortfolioSimulator :=
  match s.current_prices.get asset with
  | none => .error .wrongAssetName
  | some price =>
      let cost := price * (amount : Dec)
      if s.cash < cost then .error .notEnoughCash
      else
        let qa := dGet s.assets asset
        .ok { s with cash := s.cash - cost,
                     assets := dSet qa.2 asset (qa.1 + amount) }

/-- Method `sell(asset, amount)`: fail with `WrongAssetName` when the asset has no
holdings entry, with `NotEnoughAsset` when fewer units are held than sold,
else credit `price * amount` (attribute lookup again, though it can no
longer fail for a key the holdings got from a snapshot) and subtract the
amount. -/
def PortfolioSimulator.sell (s : PortfolioSimulator) (asset : String)
    (amount : Int) : Except SimError PortfolioSimulator :=
  if ¬ dContains s.assets asset then .error .wrongAssetName
  else
    let current_quantity := (dFind s.assets asset).getD 0
    if current_quantity < amount then .error .notEnoughAsset
    else
      match s.current_prices.get asset with
      | none => .error .wrongAssetName
      | some price =>
          .ok { s with cash := s.cash + price * (amount : Dec),
                       assets := dSet s.assets asset
                         (current_quantity - amount) }

/-- The result of Python attribute lookup on an `AssetPrice` instance:
either a `Decimal` price (a dataclass field), or some other attribute
object that is not a price — the class, the docstring, a method,
`__dataclass_fields__`, and so on. -/
inductive PyAttr where
  | price (p : Dec)
  | nonPrice
deriving DecidableEq, Repr

/-- Full Python `getattr(assetPrice, name)`: the instance's dataclass
fields answer first; otherwise the lookup still succeeds — with a
non-price object — whenever the name is one of the snapshot object's
class/object attributes, and only otherwise raises `AttributeError`
(`none`).  The exact attribute set is CPython machinery outside this
repository (in CPython it contains `__class__`, `__doc__`,
`__dataclass_fields__`, the method names, ...), so it is a parameter
`objAttrs`. -/
def getattrFull (objAttrs : String → Bool) (p : AssetPrice) (a : String) :
    Option PyAttr :=
  match p.get a with
  | some v => some (PyAttr.price v)
  | none => if objAttrs a then some PyAttr.nonPrice else none

/-- What a `buy` call can raise: `WrongAssetName` and `NotEnoughCash` as
in `SimError`, plus the uncaught `TypeError` that `cost = price * amount`
(or the `cash < cost` comparison, when the attribute is a string) raises
when `getattr` returned a non-price attribute — the `try` in the source
wraps only the `getattr`, so nothing catches it.  It escapes before any
mutation. -/
inductive PyErr where
  | wrongAssetName
  | notEnoughCash
  | typeError
deriving DecidableEq, Repr

/-- Method `buy(asset, amount)` with the full attribute-lookup semantics:
identical to `PortfolioSimulator.buy` except that a non-field attribute
name resolved by `getattr` leads to the uncaught `TypeError` instead of
`WrongAssetName`. -/
def PortfolioSimulator.buyFull (objAttrs : String → Bool)
    (s : PortfolioSimulator) (asset : String) (amount : Int) :
    Except PyErr PortfolioSimulator :=
  match getattrFull objAttrs s.current_prices asset with
  | none => .error .wrongAssetName
  | some PyAttr.nonPrice => .error .typeError
  | some (PyAttr.price price) =>
      let cost := price * (amount : Dec)
      if s.cash < cost then .error .notEnoughCash
      else
        let qa := dGet s.assets asset
        .ok { s with cash := s.cash - cost,
                     assets := dSet qa.2 asset (qa.1 + amount) }

/-- A sample of the snapshot object's non-field attribute set, for the
concrete counterexample and witness: in CPython, `__class__` is an
attribute of every object. -/
def sampleObjAttrs : String → Bool := fun a => a == "__class__"

/-- The `asset_values` list comprehension over a given prices snapshot and
holdings dict: for each dataclass field in order, read the held quantity
(a defaultdict read, which inserts missing keys with `0`) and keep
`(asset, quantity, price * quantity)` when the quantity is nonzero.
Returns the list together with the holdings dict after its side effect. -/
def assetValuesAux (prices : AssetPrice) (d : PyDict) :
    List String → List (String × Int × Dec) × PyDict
  | [] => ([], d)
  | f :: fs =>
      let qd := dGet d f
      let rest := assetValuesAux prices qd.2 fs
      if qd.1 ≠ 0 then
        ((f, qd.1, (prices.get f).getD 0 * (qd.1 : Dec)) :: rest.1, rest.2)
      else rest

/-- The `asset_values` property (its returned list; the defaultdict side
effect is tracked by `assetValuesAux`). -/
def PortfolioSimulator.asset_values (s : PortfolioSimulator) :
    List (String × Int × Dec) :=
  (assetValuesAux s.current_prices s.assets assetFields).1

/-- The `value` property: `cash + sum(price for _, _, price in asset_values)`. -/
def PortfolioSimulator.value (s : PortfolioSimulator) : Dec :=
  s.cash + (s.asset_values.map (fun t => t.2.2)).sum

/-- The held quantity of one asset, read without side effect
(`defaultdict` semantics: `0` for a missing key). -/
def PortfolioSimulator.holding (s : PortfolioSimulator) (asset : String) : Int :=
  (dFind s.assets asset).getD 0

/-- Constructor `PortfolioSimulator.__post_init__` on an explicit history sequence and
starting cash: reject negative cash (`NotEnoughCash`; the spec's
`InvalidInitialCash`), pull the first day (`StopIteration` when the
history is empty), then capture `initial_value = self.value` — the read
of `asset_values` inserts a `0` holdings entry for every snapshot field.
The logo-file read is I/O outside the model. -/
def mkSimulator (history : List (PyDate × AssetPrice)) (cash : Dec) :
    Except SimError PortfolioSimulator :=
  if cash < 0 then .error .notEnoughCash
  else
    match history with
    | [] => .error .endOfHistory
    | (d, p) :: rest =>
        let va := assetValuesAux p [] assetFields
        let v := cash + (va.1.map (fun t => t.2.2)).sum
        .ok { cash := cash, assets := va.2, days := rest,
              current_date := d, current_prices := p, initial_value := v }

/-- The literal table of `RealAssetPriceHistory`: its dated snapshots of dated snapshots. -/
def realHistory : List (PyDate × AssetPrice) :=
  [ (firstRealDate,     { LKOH := 6669, SBER := 255 }),
    (firstRealDate + 1, { LKOH := 6456, SBER := 256 }),
    (firstRealDate + 2, { LKOH := 6729, SBER := 262 }),
    (firstRealDate + 3, { LKOH := 6610, SBER := 258 }),
    (firstRealDate + 4, { LKOH := 6519, SBER := 260 }),
    (firstRealDate + 5, { LKOH := 6553, SBER := 260 }),
    (firstRealDate + 6, { LKOH := 6527, SBER := 260 }),
    (firstRealDate + 7, { LKOH := 6566, SBER := 263 }) ]

/-- One pass of `RealAssetPriceHistory.__iter__`: every call restarts the
generator over the same literal table, whatever the pass number. -/
def RealAssetPriceHistory.iterate (_pass : Nat) : List (PyDate × AssetPrice) :=
  realHistory

/-- Apply `next_day` `n` times in sequence. -/
def advanceN : Nat → PortfolioSimulator → Except SimError PortfolioSimulator
  | 0, s => .ok s
  | n + 1, s => s.next_day.bind (advanceN n)

/-- One element of `ChillAssetPriceHistory.__iter__`: the loop yields
`(today + day, asset_price)` with the one `AssetPrice()` snapshot built
before the loop. `today` is the wall-clock date at the start of the
iteration. -/
def chillIter (today : PyDate) (day : Nat) : PyDate × AssetPrice :=
  (today + day, defaultAssetPrice)

/-- A deterministic pseudo-random generator with state type `σ`, the
interface of `random.Random` as the source uses it: `seedFn` models
`Random(); random.seed(seed)` and `randFn` models `random.random()`
(one draw in `[0, 1)` plus the advanced state).  The concrete
Mersenne-Twister stream lives in the Python standard library, outside
this repository, so the generator is a parameter of the model. -/
structure PRNG (σ : Type) where
  seedFn : Int → σ
  randFn : σ → Dec × σ

/-- CPython's `Random.uniform(lo, hi) = lo + (hi - lo) * random()`;
`Decimal(float)` is an exact conversion, so the draw stays exact. -/
def PRNG.uniform {σ : Type} (g : PRNG σ) (lo hi : Dec) (st : σ) : Dec × σ :=
  (lo + (hi - lo) * (g.randFn st).1, (g.randFn st).2)

/-- The `ChaosAssetPriceHistory` dataclass: the configured multiplier range, the seed,
and the `random` stream state set once by `__post_init__` and shared by
every iteration of the instance. -/
structure ChaosAssetPriceHistory (σ : Type) where
  price_multiplier : Dec × Dec := (1/2, 3/2)
  seed : Int := 42
  random : σ

/-- Constructor `ChaosAssetPriceHistory.__post_init__`: seed the owned stream. -/
def mkChaos {σ : Type} (g : PRNG σ) (pm : Dec × Dec) (seed : Int) :
    ChaosAssetPriceHistory σ :=
  { price_multiplier := pm, seed := seed, random := g.seedFn seed }

/-- The snapshot built on one day `n > 0` of `ChaosAssetPriceHistory.__iter__`:
for each dataclass field in order draw `multiplier = Decimal(uniform(lo, hi))`
and set the field to `getattr(base_asset_price, field) * multiplier` —
`base_asset_price` is the `AssetPrice()` built before the loop and never
reassigned, so every day multiplies the day-0 default price, not the
previous day's.  The comprehension's `if` drops a field whose multiplier
is `0` (falsy), in which case the dataclass default is used instead. -/
def chaosStep {σ : Type} (g : PRNG σ) (pm : Dec × Dec) (st : σ) :
    AssetPrice × σ :=
  let dL := g.uniform pm.1 pm.2 st
  let dS := g.uniform pm.1 pm.2 dL.2
  ({ LKOH := if dL.1 = 0 then defaultAssetPrice.LKOH
             else defaultAssetPrice.LKOH * dL.1,
     SBER := if dS.1 = 0 then defaultAssetPrice.SBER
             else defaultAssetPrice.SBER * dS.1 }, dS.2)

/-- The stream state after `ChaosAssetPriceHistory.__iter__` has yielded
days `0..n` starting from state `st0`: day `0` draws nothing, each later
day consumes the two draws of `chaosStep`. -/
def chaosState {σ : Type} (g : PRNG σ) (pm : Dec × Dec) (st0 : σ) :
    Nat → σ
  | 0 => st0
  | n + 1 => (chaosStep g pm (chaosState g pm st0 n)).2

/-- The snapshot `ChaosAssetPriceHistory.__iter__` yields on day `n`:
the unchanged `AssetPrice()` on day 0, `chaosStep` from the running
stream state afterwards. -/
def chaosSnap {σ : Type} (g : PRNG σ) (pm : Dec × Dec) (st0 : σ) :
    Nat → AssetPrice
  | 0 => defaultAssetPrice
  | n + 1 => (chaosStep g pm (chaosState g pm st0 n)).1

/-- The full yielded element of day `n`: `(today + n, snapshot)`. -/
def chaosYield {σ : Type} (g : PRNG σ) (pm : Dec × Dec) (today : PyDate)
    (st0 : σ) (n : Nat) : PyDate × AssetPrice :=
  (today + n, chaosSnap g pm st0 n)

/-- The multiplier drawn for field `LKOH` (the first field) on day `n ≥ 1`:
the first `uniform` draw from the state left after day `n - 1`. -/
def chaosMultL {σ : Type} (g : PRNG σ) (pm : Dec × Dec) (st0 : σ)
    (n : Nat) : Dec :=
  (g.uniform pm.1 pm.2 (chaosState g pm st0 (n - 1))).1

/-- The multiplier drawn for field `SBER` (the second field) on day `n ≥ 1`:
the second `uniform` draw from the state left after day `n - 1`. -/
def chaosMultS {σ : Type} (g : PRNG σ) (pm : Dec × Dec) (st0 : σ)
    (n : Nat) : Dec :=
  (g.uniform pm.1 pm.2 (g.uniform pm.1 pm.2 (chaosState g pm st0 (n - 1))).2).1

/-- Iterating an instance for `N` days (`islice(history, N)`): the yielded
prefix and the stream state the instance's shared `self.random` is left
in (the state after day `N - 1`; nothing is drawn when `N = 0`). -/
def chaosRun {σ : Type} (g : PRNG σ) (pm : Dec × Dec) (today : PyDate)
    (st0 : σ) (N : Nat) : List (PyDate × AssetPrice) × σ :=
  ((List.range N).map (chaosYield g pm today st0), chaosState g pm st0 (N - 1))

/-- Iterating one freshly constructed instance twice, `N` days each time:
the second pass resumes from the stream state the first pass left on the
instance (`self.random` is seeded once, in `__post_init__`). -/
def chaosRunTwice {σ : Type} (g : PRNG σ) (pm : Dec × Dec) (today : PyDate)
    (seed : Int) (N : Nat) :
    List (PyDate × AssetPrice) × List (PyDate × AssetPrice) :=
  let h := mkChaos g pm seed
  let run1 := chaosRun g pm today h.random N
  let run2 := chaosRun g pm today run1.2 N
  (run1.1, run2.1)

/-- A concrete sample generator for witnesses and counterexamples:
state is a counter, each draw returns `st / (st + 1) ∈ [0, 1)` and
advances the counter.  Distinct states give distinct draws. -/
def sampleRand : PRNG Nat :=
  { seedFn := fun s => s.toNat, randFn := fun st => ((st : Dec) / ((st : Dec) + 1), st + 1) }

/-- The property C1 asserts of the randomized source: each day's price is
the previous day's price times that day's drawn multiplier, per field. -/
def chaosClaimedMarkov {σ : Type} (g : PRNG σ) (pm : Dec × Dec) (st0 : σ) : Prop :=
  ∀ n : Nat, 0 < n →
    (chaosSnap g pm st0 n).LKOH
      = (chaosSnap g pm st0 (n - 1)).LKOH * chaosMultL g pm st0 n ∧
    (chaosSnap g pm st0 n).SBER
      = (chaosSnap g pm st0 (n - 1)).SBER * chaosMultS g pm st0 n

/-! ### Lemmas about the dictionary model -/

theorem dFind_cons (x : String × Int) (t : PyDict) (k : String) :
    dFind (x :: t) k = if x.1 == k then some x.2 else dFind t k := by
  cases hx : x.1 == k <;> simp [dFind, List.find?_cons, hx]

theorem dContains_cons (x : String × Int) (t : PyDict) (k : String) :
    dContains (x :: t) k = (x.1 == k || dContains t k) := by
  simp [dContains]

theorem dFind_append (d1 d2 : PyDict) (k : String) :
    dFind (d1 ++ d2) k
      = match dFind d1 k with | some v => some v | none => dFind d2 k := by
  induction d1 with
  | nil => simp [dFind]
  | cons x t ih => cases hx : x.1 == k <;> simp [dFind_cons, hx, ih]

theorem dSet_nil (k : String) (v : Int) : dSet [] k v = [(k, v)] := rfl

theorem dSet_cons_eq (x : String × Int) (t : PyDict) (k : String) (v : Int)
    (h : (x.1 == k) = true) :
    dSet (x :: t) k v = (k, v) :: t.map (fun p => if p.1 == k then (k, v) else p) := by
  have hxk : x.1 = k := eq_of_beq h
  simp [dSet, dContains_cons, h, hxk]

theorem dSet_cons_ne (x : String × Int) (t : PyDict) (k : String) (v : Int)
    (h : (x.1 == k) = false) :
    dSet (x :: t) k v = x :: dSet t k v := by
  have hxk : x.1 ≠ k := ne_of_beq_false h
  cases hc : dContains t k <;> simp [dSet, dContains_cons, h, hc, hxk]

theorem dFind_dSet_self (d : PyDict) (k : String) (v : Int) :
    dFind (dSet d k v) k = some v := by
  induction d with
  | nil => simp [dSet_nil, dFind_cons]
  | cons x t ih =>
      cases hx : x.1 == k with
      | true => rw [dSet_cons_eq x t k v hx]; simp [dFind_cons]
      | false => rw [dSet_cons_ne x t k v hx]; simp [dFind_cons, hx, ih]

theorem dFind_map_set (t : PyDict) (k k' : String) (v : Int) (h : k' ≠ k) :
    dFind (t.map (fun p => if p.1 == k then (k, v) else p)) k' = dFind t k' := by
  have hk : (k == k') = false := beq_eq_false_iff_ne.mpr (Ne.symm h)
  induction t with
  | nil => rfl
  | cons x t ih =>
      simp only [beq_iff_eq] at ih
      cases hx : x.1 == k with
      | true =>
          have hxk : x.1 = k := eq_of_beq hx
          simp [List.map_cons, dFind_cons, hx, hxk, hk, ih]
      | false => simp [List.map_cons, dFind_cons, hx, ih, ne_of_beq_false hx]

theorem dFind_dSet_other (d : PyDict) (k k' : String) (v : Int) (h : k' ≠ k) :
    dFind (dSet d k v) k' = dFind d k' := by
  have hk : (k == k') = false := beq_eq_false_iff_ne.mpr (Ne.symm h)
  induction d with
  | nil => simp [dSet_nil, dFind_cons, dFind, hk]
  | cons x t ih =>
      cases hx : x.1 == k with
      | true =>
          rw [dSet_cons_eq x t k v hx, dFind_cons, dFind_cons]
          have hxk : x.1 = k := eq_of_beq hx
          have hm := dFind_map_set t k k' v h
          simp only [beq_iff_eq] at hm
          simp [hk, hxk, hm]
      | false => rw [dSet_cons_ne x t k v hx, dFind_cons, dFind_cons, ih]

theorem dGet_fst (d : PyDict) (k : String) :
    (dGet d k).1 = (dFind d k).getD 0 := by
  unfold dGet; cases h : dFind d k <;> simp

theorem dFind_dGet_self (d : PyDict) (k : String) :
    dFind (dGet d k).2 k = some ((dGet d k).1) := by
  unfold dGet
  cases h : dFind d k with
  | some v => simpa using h
  | none => rw [dFind_append]; simp [h, dFind_cons]

theorem dFind_dGet_other (d : PyDict) (k k' : String) (h : k' ≠ k) :
    dFind (dGet d k).2 k' = dFind d k' := by
  have hk : (k == k') = false := beq_eq_false_iff_ne.mpr (Ne.symm h)
  unfold dGet
  cases hf : dFind d k with
  | some v => simp
  | none => rw [dFind_append]; cases h2 : dFind d k' <;> simp [dFind_cons, dFind, hk]

theorem dSet_entries (d : PyDict) (k : String) (v : Int) (P : Int → Prop)
    (hd : ∀ x ∈ d, P x.2) (hv : P v) : ∀ x ∈ dSet d k v, P x.2 := by
  intro x hx
  unfold dSet at hx
  split at hx
  · obtain ⟨y, hy, hsub⟩ := List.mem_map.mp hx
    by_cases hk : y.1 == k
    · simp [hk] at hsub; rw [← hsub]; exact hv
    · simp [hk] at hsub; rw [← hsub]; exact hd y hy
  · rcases List.mem_append.mp hx with h1 | h1
    · exact hd x h1
    · simp at h1; rw [h1]; exact hv

theorem dGet_entries (d : PyDict) (k : String) (P : Int → Prop)
    (hd : ∀ x ∈ d, P x.2) (h0 : P 0) : ∀ x ∈ (dGet d k).2, P x.2 := by
  intro x hx
  unfold dGet at hx
  split at hx
  · exact hd x hx
  · rcases List.mem_append.mp hx with h1 | h1
    · exact hd x h1
    · simp at h1; rw [h1]; exact h0

theorem dFind_entry (d : PyDict) (k : String) (v : Int)
    (h : dFind d k = some v) : ∃ x ∈ d, x.2 = v := by
  unfold dFind at h
  rcases Option.map_eq_some'.mp h with ⟨p, hp, hv⟩
  exact ⟨p, List.mem_of_find?_eq_some hp, hv⟩

/-! ### Lemmas about the simulator's operations -/

theorem get_cases (p : AssetPrice) (a : String) (x : Dec)
    (h : p.get a = some x) :
    (a = "LKOH" ∧ x = p.LKOH) ∨ (a = "SBER" ∧ x = p.SBER) := by
  unfold AssetPrice.get at h
  split at h
  · exact Or.inl ⟨rfl, (Option.some.injEq _ _ ▸ h).symm⟩
  · exact Or.inr ⟨rfl, (Option.some.injEq _ _ ▸ h).symm⟩
  · cases h

theorem buy_ok_inv (s : PortfolioSimulator) (a : String) (q : Int)
    (s' : PortfolioSimulator) (h : s.buy a q = .ok s') :
    ∃ p, s.current_prices.get a = some p ∧ ¬ s.cash < p * (q : Dec) ∧
      s' = { s with cash := s.cash - p * (q : Dec),
                    assets := dSet (dGet s.assets a).2 a ((dGet s.assets a).1 + q) } := by
  unfold PortfolioSimulator.buy at h
  cases hg : s.current_prices.get a with
  | none => rw [hg] at h; cases h
  | some p =>
      rw [hg] at h
      by_cases hc : s.cash < p * (q : Dec)
      · simp [hc] at h
      · simp [hc] at h
        exact ⟨p, rfl, hc, h.symm⟩

theorem buy_ok (s : PortfolioSimulator) (a : String) (q : Int) (p : Dec)
    (hp : s.current_prices.get a = some p) (hc : ¬ s.cash < p * (q : Dec)) :
    s.buy a q = .ok { s with cash := s.cash - p * (q : Dec),
                             assets := dSet (dGet s.assets a).2 a
                               ((dGet s.assets a).1 + q) } := by
  unfold PortfolioSimulator.buy
  rw [hp]
  simp [hc]

theorem sell_ok_inv (s : PortfolioSimulator) (a : String) (q : Int)
    (s' : PortfolioSimulator) (h : s.sell a q = .ok s') :
    ∃ p, dContains s.assets a = true ∧ ¬ (s.holding a < q) ∧
      s.current_prices.get a = some p ∧
      s' = { s with cash := s.cash + p * (q : Dec),
                    assets := dSet s.assets a (s.holding a - q) } := by
  unfold PortfolioSimulator.sell at h
  by_cases hc : dContains s.assets a
  · rw [if_neg (by simpa using hc)] at h
    by_cases hq : (dFind s.assets a).getD 0 < q
    · simp [hq] at h
    · rw [if_neg hq] at h
      cases hg : s.current_prices.get a with
      | none => rw [hg] at h; cases h
      | some p =>
          rw [hg] at h
          simp at h
          exact ⟨p, hc, hq, rfl, h.symm⟩
  · rw [if_pos (by simpa using hc)] at h
    cases h

theorem sell_ok (s : PortfolioSimulator) (a : String) (q : Int) (p : Dec)
    (hcont : dContains s.assets a = true) (hq : ¬ (s.holding a < q))
    (hp : s.current_prices.get a = some p) :
    s.sell a q = .ok { s with cash := s.cash + p * (q : Dec),
                              assets := dSet s.assets a (s.holding a - q) } := by
  unfold PortfolioSimulator.holding at hq ⊢
  unfold PortfolioSimulator.sell
  rw [if_neg (by simpa using hcont)]
  simp [hq, hp]

theorem value_eq (s : PortfolioSimulator) :
    s.value = s.cash + s.current_prices.LKOH * (s.holding "LKOH" : Dec)
      + s.current_prices.SBER * (s.holding "SBER" : Dec) := by
  have hS : dFind (dGet s.assets "LKOH").2 "SBER" = dFind s.assets "SBER" :=
    dFind_dGet_other _ _ _ (by decide)
  unfold PortfolioSimulator.value PortfolioSimulator.asset_values
      PortfolioSimulator.holding
  simp only [assetFields, assetValuesAux, dGet_fst, hS]
  by_cases h1 : (dFind s.assets "LKOH").getD 0 = 0 <;>
    by_cases h2 : (dFind s.assets "SBER").getD 0 = 0 <;>
      simp [h1, h2, AssetPrice.get] <;> push_cast <;> ring

/-! ### Concrete fixture: the freshly constructed default simulator -/

/-- The state `PortfolioSimulator(history=RealAssetPriceHistory())` is in
right after construction: day 0 pulled, zero-quantity holdings recorded
for both snapshot fields by the `asset_values` read, initial value
captured. -/
def simStart : PortfolioSimulator :=
  { cash := 100000,
    assets := [("LKOH", 0), ("SBER", 0)],
    days := realHistory.tail,
    current_date := firstRealDate,
    current_prices := { LKOH := 6669, SBER := 255 },
    initial_value := 100000 }

theorem mkSimulator_realHistory :
    mkSimulator realHistory 100000 = .ok simStart := by
  norm_num +decide [mkSimulator, realHistory, simStart, assetValuesAux, assetFields,
    dGet, dFind, firstRealDate]

/-! ### The claims -/

/-- C7: construction fails with the construction-time cash error
(`NotEnoughCash` in the code; the spec names this construction failure
`InvalidInitialCash`) exactly when the starting cash is negative.  For
cash ≥ 0 that error never occurs — an empty history still fails, but
with the distinct end-of-history signal. -/
theorem initial_cash_validated (history : List (PyDate × AssetPrice)) (cash : Dec) :
    mkSimulator history cash = .error .notEnoughCash ↔ cash < 0 := by
  unfold mkSimulator
  by_cases hc : cash < 0
  · simp [hc]
  · rcases history with _ | ⟨⟨d, p⟩, rest⟩ <;> simp [hc]

/-- C8: the stationary source yields the day-0 snapshot on every day, its
dates advance by exactly one day per step, and the first date is the
wall-clock `today`. -/
theorem chill_constant_snapshot_daily_dates (today : PyDate) (n : Nat) :
    (chillIter today n).2 = (chillIter today 0).2 ∧
    (chillIter today (n + 1)).1 = (chillIter today n).1 + 1 ∧
    (chillIter today 0).1 = today :=
  ⟨rfl, rfl, rfl⟩

/-- C5: the deterministic-replay source yields the same (date, snapshot)
sequence on every pass of its generator; a simulator that consumed day 1
at construction advances seven more times to the table's 8th and last
day, and the next advance fails with the end-of-history signal
(`StopIteration`, surfaced as `EndOfHistory`). -/
theorem real_history_replay_then_exhaustion :
    RealAssetPriceHistory.iterate 0 = RealAssetPriceHistory.iterate 1 ∧
    (∃ s : PortfolioSimulator,
        (mkSimulator realHistory 100000).bind (advanceN 7) = .ok s ∧
        s.days = [] ∧ s.current_date = firstRealDate + 7 ∧
        s.next_day = .error .endOfHistory) ∧
    (mkSimulator realHistory 100000).bind (advanceN 8) = .error .endOfHistory := by
  rw [mkSimulator_realHistory]
  exact ⟨rfl, ⟨_, rfl, rfl, rfl, rfl⟩, rfl⟩

/-- C6: two independently constructed randomized sources given the same
seed and the same multiplier range, iterated from the same wall-clock
day, yield identical (date, snapshot) sequences for the first N days —
for every deterministic pseudo-random generator implementing the seeded
stream (`random.seed(seed)` fixes the stream, so equal configuration
means equal paths). -/
theorem chaos_same_seed_identical_paths {σ : Type} (g : PRNG σ)
    (pm1 pm2 : Dec × Dec) (seed1 seed2 : Int) (today : PyDate) (N : Nat)
    (hseed : seed1 = seed2) (hpm : pm1 = pm2) :
    (chaosRun g pm1 today (mkChaos g pm1 seed1).random N).1
      = (chaosRun g pm2 today (mkChaos g pm2 seed2).random N).1 := by
  rw [hseed, hpm]

theorem chaos_same_seed_identical_paths_witness :
    (chaosRun sampleRand (1/2, 3/2) 738773 (mkChaos sampleRand (1/2, 3/2) 42).random 5).1
      = (chaosRun sampleRand (1/2, 3/2) 738773 (mkChaos sampleRand (1/2, 3/2) 42).random 5).1 :=
  chaos_same_seed_identical_paths sampleRand (1/2, 3/2) (1/2, 3/2) 42 42 738773 5 rfl rfl

/-- C10: the randomized source's stream is seeded once at construction and
shared across iterations.  First conjunct, for every generator: the second
iteration of one instance resumes from the stream state the first left
behind (`chaosState … (N-1)`) instead of the seeded state.  Second
conjunct: for a concrete generator, iterating one instance twice yields
two different price paths — while `chaos_same_seed_identical_paths` shows
two freshly constructed instances agree. -/
theorem chaos_stream_shared_across_iterations :
    (∀ (σ : Type) (g : PRNG σ) (pm : Dec × Dec) (today : PyDate)
        (seed : Int) (N : Nat),
      (chaosRunTwice g pm today seed N).2
        = (chaosRun g pm today (chaosState g pm (g.seedFn seed) (N - 1)) N).1) ∧
    (chaosRunTwice sampleRand (1/2, 3/2) 738773 42 2).1
      ≠ (chaosRunTwice sampleRand (1/2, 3/2) 738773 42 2).2 := by
  constructor
  · intro σ g pm today seed N
    rfl
  · norm_num [chaosRunTwice, chaosRun, chaosYield, chaosSnap, chaosState, chaosStep,
      mkChaos, PRNG.uniform, sampleRand, defaultAssetPrice, List.range_succ, Int.toNat]

/-- C1, counterexample: the randomized source does not satisfy the claimed
day-to-day recurrence price_n = price_{n-1} × multiplier_n.  With the
concrete generator `sampleRand` seeded at 42, already day 2's snapshot
violates it: the source multiplies the never-updated day-0 base price, not
the previous day's price. -/
theorem chaos_markov_refuted :
    ¬ chaosClaimedMarkov sampleRand (1/2, 3/2) (sampleRand.seedFn 42) := by
  intro h
  have h2 := (h 2 (by norm_num)).2
  norm_num [chaosSnap, chaosState, chaosStep, chaosMultS, PRNG.uniform, sampleRand,
    defaultAssetPrice, Int.toNat] at h2

/-- C1, amended: on every day n > 0 each asset's yielded price equals the
**day-0 default (base) price** times the multiplier drawn for that asset
on day n from the seeded stream — except that a multiplier equal to 0 is
dropped by the comprehension's truthiness filter and the field keeps the
dataclass default (the same base price).  The multiplier is
`uniform(lo, hi)` from the configured range.  This holds for every
generator implementing the stream. -/
theorem chaos_price_from_day0_base {σ : Type} (g : PRNG σ) (pm : Dec × Dec)
    (st0 : σ) (n : Nat) (hn : 0 < n) :
    (chaosSnap g pm st0 n).LKOH
      = (if chaosMultL g pm st0 n = 0 then defaultAssetPrice.LKOH
         else defaultAssetPrice.LKOH * chaosMultL g pm st0 n) ∧
    (chaosSnap g pm st0 n).SBER
      = (if chaosMultS g pm st0 n = 0 then defaultAssetPrice.SBER
         else defaultAssetPrice.SBER * chaosMultS g pm st0 n) := by
  cases n with
  | zero => exact absurd hn (lt_irrefl 0)
  | succ m =>
      constructor
      · simp [chaosSnap, chaosStep, chaosMultL, Nat.succ_sub_one]
      · simp [chaosSnap, chaosStep, chaosMultS, Nat.succ_sub_one]

theorem chaos_price_from_day0_base_witness :
    (chaosSnap sampleRand (1/2, 3/2) (sampleRand.seedFn 42) 1).LKOH
      = (if chaosMultL sampleRand (1/2, 3/2) (sampleRand.seedFn 42) 1 = 0
         then defaultAssetPrice.LKOH
         else defaultAssetPrice.LKOH
           * chaosMultL sampleRand (1/2, 3/2) (sampleRand.seedFn 42) 1) ∧
    (chaosSnap sampleRand (1/2, 3/2) (sampleRand.seedFn 42) 1).SBER
      = (if chaosMultS sampleRand (1/2, 3/2) (sampleRand.seedFn 42) 1 = 0
         then defaultAssetPrice.SBER
         else defaultAssetPrice.SBER
           * chaosMultS sampleRand (1/2, 3/2) (sampleRand.seedFn 42) 1) :=
  chaos_price_from_day0_base sampleRand (1/2, 3/2) (sampleRand.seedFn 42) 1 Nat.one_pos

theorem get_none_iff (p : AssetPrice) (a : String) :
    p.get a = none ↔ a ∉ assetFields := by
  constructor
  · intro h hmem
    simp only [assetFields, List.mem_cons, List.not_mem_nil, or_false] at hmem
    rcases hmem with rfl | rfl <;> simp [AssetPrice.get] at h
  · intro h
    unfold AssetPrice.get
    split
    · simp [assetFields] at h
    · simp [assetFields] at h
    · rfl

theorem get_some_of_mem (p : AssetPrice) (a : String) (h : a ∈ assetFields) :
    ∃ v, p.get a = some v := by
  simp only [assetFields, List.mem_cons, List.not_mem_nil, or_false] at h
  rcases h with rfl | rfl
  · exact ⟨p.LKOH, rfl⟩
  · exact ⟨p.SBER, rfl⟩

theorem buyFull_ok (objAttrs : String → Bool) (s : PortfolioSimulator)
    (a : String) (q : Int) (p : Dec)
    (hp : s.current_prices.get a = some p) (hc : ¬ s.cash < p * (q : Dec)) :
    PortfolioSimulator.buyFull objAttrs s a q
      = .ok { s with cash := s.cash - p * (q : Dec),
                     assets := dSet (dGet s.assets a).2 a
                       ((dGet s.assets a).1 + q) } := by
  unfold PortfolioSimulator.buyFull getattrFull
  rw [hp]
  simp [hc]

/-- C4, counterexample: `"__class__"` is not among the snapshot's asset
identifiers, yet CPython's `getattr(self.current_prices, "__class__")`
succeeds — the `try` wraps only the `getattr` — so `buy("__class__", 1)`
crashes with an uncaught `TypeError` at `cost = price * amount` instead
of failing with `WrongAssetName`: the claimed 'UnknownAsset exactly when
a is not among the asset identifiers' biconditional is false of the
program. -/
theorem buy_dunder_typeerror_not_unknown_asset :
    PortfolioSimulator.buyFull sampleObjAttrs simStart "__class__" 1
      = .error .typeError ∧
    "__class__" ∉ assetFields ∧
    PortfolioSimulator.buyFull sampleObjAttrs simStart "__class__" 1
      ≠ .error .wrongAssetName := by
  have h1 : PortfolioSimulator.buyFull sampleObjAttrs simStart "__class__" 1
      = .error .typeError := rfl
  refine ⟨h1, by decide, ?_⟩
  rw [h1]
  simp

/-- C4, amended: for every positive quantity and every attribute set
implementing the snapshot object's non-field attributes, `buy` fails
with the unknown-asset error (`WrongAssetName`, the spec's
`UnknownAsset`) exactly when the name is neither a snapshot field nor
any other attribute of the snapshot object; a non-field attribute name
(such as `__class__` in CPython) instead crashes the call with the
uncaught `TypeError`; for a snapshot field the call fails with the
insufficient-cash error exactly when the cost exceeds the cash, and
succeeds otherwise with cash decreased by the cost and only that
asset's holding increased by the quantity.  Every failure and the crash
happen before any mutation, so cash and holdings stay as they were. -/
theorem buy_error_conditions_full (objAttrs : String → Bool)
    (s : PortfolioSimulator) (a : String) (q : Int) (hq : 0 < q) :
    (PortfolioSimulator.buyFull objAttrs s a q = .error .wrongAssetName
       ↔ (a ∉ assetFields ∧ objAttrs a = false)) ∧
    (PortfolioSimulator.buyFull objAttrs s a q = .error .typeError
       ↔ (a ∉ assetFields ∧ objAttrs a = true)) ∧
    (∀ p, s.current_prices.get a = some p →
      ((PortfolioSimulator.buyFull objAttrs s a q = .error .notEnoughCash
          ↔ s.cash < p * (q : Dec)) ∧
       (¬ s.cash < p * (q : Dec) →
         ∃ s', PortfolioSimulator.buyFull objAttrs s a q = .ok s' ∧
           s'.cash = s.cash - p * (q : Dec) ∧
           s'.holding a = s.holding a + q ∧
           (∀ b, b ≠ a → s'.holding b = s.holding b) ∧
           s'.current_prices = s.current_prices ∧ s'.days = s.days ∧
           s'.current_date = s.current_date ∧
           s'.initial_value = s.initial_value))) := by
  cases hg : s.current_prices.get a with
  | none =>
      have hmem : a ∉ assetFields := (get_none_iff s.current_prices a).mp hg
      by_cases ho : objAttrs a
      · refine ⟨?_, ?_, ?_⟩
        · simp [PortfolioSimulator.buyFull, getattrFull, hg, ho]
        · simp [PortfolioSimulator.buyFull, getattrFull, hg, ho, hmem]
        · intro p hp
          cases hp
      · have ho2 : objAttrs a = false := by simpa using ho
        refine ⟨?_, ?_, ?_⟩
        · simp [PortfolioSimulator.buyFull, getattrFull, hg, ho2, hmem]
        · simp [PortfolioSimulator.buyFull, getattrFull, hg, ho2]
        · intro p hp
          cases hp
  | some p0 =>
      have hmem : a ∈ assetFields := by
        by_contra hmem
        rw [(get_none_iff s.current_prices a).mpr hmem] at hg
        cases hg
      refine ⟨?_, ?_, ?_⟩
      · unfold PortfolioSimulator.buyFull getattrFull
        rw [hg]
        by_cases hc : s.cash < p0 * (q : Dec) <;> simp [hc, hmem]
      · unfold PortfolioSimulator.buyFull getattrFull
        rw [hg]
        by_cases hc : s.cash < p0 * (q : Dec) <;> simp [hc, hmem]
      · intro p hp
        injection hp with hpp
        subst hpp
        constructor
        · unfold PortfolioSimulator.buyFull getattrFull
          rw [hg]
          by_cases hc : s.cash < p0 * (q : Dec) <;> simp [hc]
        · intro hc
          refine ⟨_, buyFull_ok objAttrs s a q p0 hg hc, rfl, ?_, ?_,
            rfl, rfl, rfl, rfl⟩
          · simp [PortfolioSimulator.holding, dFind_dSet_self, dGet_fst]
          · intro b hb
            simp [PortfolioSimulator.holding,
              dFind_dSet_other (dGet s.assets a).2 a b _ hb,
              dFind_dGet_other s.assets a b hb]

theorem buy_error_conditions_full_witness :
    (PortfolioSimulator.buyFull sampleObjAttrs simStart "SBER" 3
        = .error .wrongAssetName
       ↔ ("SBER" ∉ assetFields ∧ sampleObjAttrs "SBER" = false)) ∧
    (PortfolioSimulator.buyFull sampleObjAttrs simStart "SBER" 3
        = .error .typeError
       ↔ ("SBER" ∉ assetFields ∧ sampleObjAttrs "SBER" = true)) ∧
    (∀ p, simStart.current_prices.get "SBER" = some p →
      ((PortfolioSimulator.buyFull sampleObjAttrs simStart "SBER" 3
           = .error .notEnoughCash
          ↔ simStart.cash < p * ((3 : Int) : Dec)) ∧
       (¬ simStart.cash < p * ((3 : Int) : Dec) →
         ∃ s', PortfolioSimulator.buyFull sampleObjAttrs simStart "SBER" 3
             = .ok s' ∧
           s'.cash = simStart.cash - p * ((3 : Int) : Dec) ∧
           s'.holding "SBER" = simStart.holding "SBER" + 3 ∧
           (∀ b, b ≠ "SBER" → s'.holding b = simStart.holding b) ∧
           s'.current_prices = simStart.current_prices ∧
           s'.days = simStart.days ∧
           s'.current_date = simStart.current_date ∧
           s'.initial_value = simStart.initial_value))) :=
  buy_error_conditions_full sampleObjAttrs simStart "SBER" 3 (by decide)

/-- Holdings-key discipline: the holdings dict's key set is exactly the
snapshot field set.  Established at construction, preserved by every
operation. -/
def fieldsExactlyRecorded (s : PortfolioSimulator) : Prop :=
  ∀ b, dContains s.assets b = true ↔ b ∈ assetFields

theorem fieldsExactlyRecorded_of_assets (s : PortfolioSimulator)
    (h : s.assets = [("LKOH", 0), ("SBER", 0)]) : fieldsExactlyRecorded s := by
  intro b
  rw [h]
  constructor
  · intro hb
    simp [dContains] at hb
    simp only [assetFields, List.mem_cons, List.not_mem_nil, or_false]
    rcases hb with h1 | h1
    · exact Or.inl h1.symm
    · exact Or.inr h1.symm
  · intro hb
    simp only [assetFields, List.mem_cons, List.not_mem_nil, or_false] at hb
    rcases hb with rfl | rfl <;> simp [dContains]

theorem dContains_eq_isSome (d : PyDict) (k : String) :
    dContains d k = (dFind d k).isSome := by
  induction d with
  | nil => rfl
  | cons x t ih => cases hx : x.1 == k <;> simp [dContains_cons, dFind_cons, hx, ih]

theorem dContains_dSet (d : PyDict) (k : String) (v : Int) (b : String) :
    dContains (dSet d k v) b = (dContains d b || (k == b)) := by
  by_cases hb : b = k
  · subst hb
    simp [dContains_eq_isSome, dFind_dSet_self]
  · rw [dContains_eq_isSome, dContains_eq_isSome, dFind_dSet_other d k b v hb]
    simp [beq_eq_false_iff_ne.mpr (Ne.symm hb)]

theorem dContains_dGet (d : PyDict) (k b : String) :
    dContains (dGet d k).2 b = (dContains d b || (k == b)) := by
  by_cases hb : b = k
  · subst hb
    rw [dContains_eq_isSome, dFind_dGet_self]
    simp
  · rw [dContains_eq_isSome, dContains_eq_isSome, dFind_dGet_other d k b hb]
    simp [beq_eq_false_iff_ne.mpr (Ne.symm hb)]

theorem next_day_ok_assets (s s' : PortfolioSimulator)
    (h : s.next_day = .ok s') : s'.assets = s.assets := by
  unfold PortfolioSimulator.next_day at h
  rcases hd : s.days with _ | ⟨⟨d, p⟩, rest⟩ <;> rw [hd] at h
  · cases h
  · injection h with h
    rw [← h]

theorem sell_insufficient_of_holding_lt (s : PortfolioSimulator) (a : String)
    (q : Int) (hcont : dContains s.assets a = true) (hlt : s.holding a < q) :
    s.sell a q = .error .notEnoughAsset := by
  unfold PortfolioSimulator.holding at hlt
  unfold PortfolioSimulator.sell
  rw [if_neg (by simpa using hcont)]
  simp [hlt]

/-- The state after `sell("LKOH", -5)` from the fresh default simulator:
cash 100000 + 6669 * (-5) = 66655, and a minted holding of 5 LKOH that
was never bought. -/
def simAfterNegSell : PortfolioSimulator :=
  { simStart with cash := 66655, assets := [("LKOH", 5), ("SBER", 0)] }

/-- The state after the subsequent `sell("LKOH", 3)`:
cash 66655 + 6669 * 3 = 86662 and 2 LKOH left. -/
def simAfterResell : PortfolioSimulator :=
  { simStart with cash := 86662, assets := [("LKOH", 2), ("SBER", 0)] }

/-- C9, counterexample: the 'from construction onward' consequence fails.
From the freshly constructed default simulator — all holdings zero, LKOH
never bought — `sell("LKOH", -5)` *succeeds* (`0 < -5` is false) and
mints a holding of 5; the following `sell("LKOH", 3)` on the
still-never-bought asset then succeeds instead of failing with the
insufficient-holdings error. -/
theorem never_bought_sell_not_insufficient :
    mkSimulator realHistory 100000 = .ok simStart ∧
    simStart.sell "LKOH" (-5) = .ok simAfterNegSell ∧
    simAfterNegSell.sell "LKOH" 3 = .ok simAfterResell ∧
    simAfterNegSell.sell "LKOH" 3 ≠ .error .notEnoughAsset := by
  have h2 : simStart.sell "LKOH" (-5) = .ok simAfterNegSell := by
    norm_num +decide [PortfolioSimulator.sell, simStart, simAfterNegSell,
      AssetPrice.get, dContains, dFind, dSet]
  have h3 : simAfterNegSell.sell "LKOH" 3 = .ok simAfterResell := by
    norm_num +decide [PortfolioSimulator.sell, simAfterNegSell, simAfterResell,
      simStart, AssetPrice.get, dContains, dFind, dSet]
  exact ⟨mkSimulator_realHistory, h2, h3, by rw [h3]; simp⟩

/-- C9, amended: the `asset_values` read during construction (capturing
the initial value) inserts a zero-quantity holdings record for every
snapshot field, so the holdings keys are exactly the snapshot fields —
and that key discipline is preserved by every successful `buy`, `sell`
and `next_day`, hence holds from construction onward.  Under it, selling
a snapshot asset held in a quantity smaller than the requested amount —
in particular any positive sell at the freshly constructed state, where
every holding is zero — fails with the insufficient-holdings error
(`NotEnoughAsset`), never the unknown-asset error, and the unknown-asset
error from `sell` occurs only for identifiers outside both the field set
and the holdings dict.  The original 'never bought ⟹ InsufficientHoldings
onward' is weakened to 'held quantity below the requested amount'
because a negative-quantity sell can mint holdings for a never-bought
asset — see the counterexample. -/
theorem holdings_seeded_and_sell_error_discipline
    (history : List (PyDate × AssetPrice)) (cash : Dec)
    (s0 : PortfolioSimulator) (hmk : mkSimulator history cash = .ok s0) :
    s0.assets = [("LKOH", 0), ("SBER", 0)] ∧
    fieldsExactlyRecorded s0 ∧
    (∀ a q, a ∈ assetFields → 0 < q → s0.sell a q = .error .notEnoughAsset) ∧
    (∀ s : PortfolioSimulator, ∀ a q, fieldsExactlyRecorded s →
        a ∈ assetFields → s.holding a < q →
        s.sell a q = .error .notEnoughAsset) ∧
    (∀ s : PortfolioSimulator, ∀ a q, fieldsExactlyRecorded s →
        s.sell a q = .error .wrongAssetName →
        a ∉ assetFields ∧ dContains s.assets a = false) ∧
    (∀ s s' : PortfolioSimulator, ∀ a q, fieldsExactlyRecorded s →
        (s.buy a q = .ok s' ∨ s.sell a q = .ok s' ∨ s.next_day = .ok s') →
        fieldsExactlyRecorded s') := by
  have hassets : s0.assets = [("LKOH", 0), ("SBER", 0)] := by
    unfold mkSimulator at hmk
    by_cases hc : cash < 0
    · rw [if_pos hc] at hmk; cases hmk
    rw [if_neg hc] at hmk
    rcases history with _ | ⟨⟨d, p⟩, rest⟩
    · cases hmk
    injection hmk with hmk
    subst hmk
    rfl
  have hfx0 : fieldsExactlyRecorded s0 := fieldsExactlyRecorded_of_assets s0 hassets
  refine ⟨hassets, hfx0, ?_, ?_, ?_, ?_⟩
  · intro a q ha hq
    have h0 : s0.holding a = 0 := by
      unfold PortfolioSimulator.holding
      rw [hassets]
      simp only [assetFields, List.mem_cons, List.not_mem_nil, or_false] at ha
      rcases ha with rfl | rfl <;> rfl
    exact sell_insufficient_of_holding_lt s0 a q ((hfx0 a).mpr ha)
      (by rw [h0]; exact hq)
  · intro s a q hfx ha hlt
    exact sell_insufficient_of_holding_lt s a q ((hfx a).mpr ha) hlt
  · intro s a q hfx hsell
    by_cases hcont : dContains s.assets a
    · exfalso
      have ha : a ∈ assetFields := (hfx a).mp (by simpa using hcont)
      obtain ⟨v, hv⟩ := get_some_of_mem s.current_prices a ha
      unfold PortfolioSimulator.sell at hsell
      rw [if_neg (by simpa using hcont)] at hsell
      by_cases hq2 : (dFind s.assets a).getD 0 < q
      · simp [hq2] at hsell
      · simp [hq2, hv] at hsell
    · have hb : dContains s.assets a = false := by simpa using hcont
      exact ⟨fun ha => hcont ((hfx a).mpr ha), hb⟩
  · intro s s' a q hfx hop
    rcases hop with hbuy | hsell | hnd
    · obtain ⟨p, hp, hc, hs'⟩ := buy_ok_inv s a q s' hbuy
      have ha : a ∈ assetFields := by
        by_contra hmem
        rw [(get_none_iff s.current_prices a).mpr hmem] at hp
        cases hp
      subst hs'
      intro b
      show dContains (dSet (dGet s.assets a).2 a ((dGet s.assets a).1 + q)) b
          = true ↔ b ∈ assetFields
      rw [dContains_dSet, dContains_dGet]
      by_cases hb : b = a
      · subst hb
        simp [ha]
      · rw [show (a == b) = false from beq_eq_false_iff_ne.mpr (Ne.symm hb)]
        simp [hfx b]
    · obtain ⟨p, hcont, hqty, hp, hs'⟩ := sell_ok_inv s a q s' hsell
      have ha : a ∈ assetFields := (hfx a).mp hcont
      subst hs'
      intro b
      show dContains (dSet s.assets a (s.holding a - q)) b = true ↔ b ∈ assetFields
      rw [dContains_dSet]
      by_cases hb : b = a
      · subst hb
        simp [ha]
      · rw [show (a == b) = false from beq_eq_false_iff_ne.mpr (Ne.symm hb)]
        simp [hfx b]
    · intro b
      rw [show s'.assets = s.assets from next_day_ok_assets s s' hnd]
      exact hfx b

theorem holdings_seeded_and_sell_error_discipline_witness :
    simStart.assets = [("LKOH", 0), ("SBER", 0)] ∧
    fieldsExactlyRecorded simStart ∧
    (∀ a q, a ∈ assetFields → 0 < q → simStart.sell a q = .error .notEnoughAsset) ∧
    (∀ s : PortfolioSimulator, ∀ a q, fieldsExactlyRecorded s →
        a ∈ assetFields → s.holding a < q →
        s.sell a q = .error .notEnoughAsset) ∧
    (∀ s : PortfolioSimulator, ∀ a q, fieldsExactlyRecorded s →
        s.sell a q = .error .wrongAssetName →
        a ∉ assetFields ∧ dContains s.assets a = false) ∧
    (∀ s s' : PortfolioSimulator, ∀ a q, fieldsExactlyRecorded s →
        (s.buy a q = .ok s' ∨ s.sell a q = .ok s' ∨ s.next_day = .ok s') →
        fieldsExactlyRecorded s') :=
  holdings_seeded_and_sell_error_discipline realHistory 100000 simStart
    mkSimulator_realHistory

/-- C3: for a known asset and positive quantity, a successful `buy` pays
`price * quantity` out of cash and adds the quantity to that asset's
holding, a successful `sell` is the symmetric inverse, and both leave
the portfolio `value` (cash plus holdings at current prices) exactly
unchanged — the trade converts cash and asset value at one price. -/
theorem trade_equations_value_conserved (s : PortfolioSimulator) (a : String)
    (q : Int) (p : Dec) (hq : 0 < q)
    (hp : s.current_prices.get a = some p) :
    (∀ s', s.buy a q = .ok s' →
        s'.cash = s.cash - p * (q : Dec) ∧ s'.holding a = s.holding a + q ∧
        s'.value = s.value) ∧
    (∀ s', s.sell a q = .ok s' →
        s'.cash = s.cash + p * (q : Dec) ∧ s'.holding a = s.holding a - q ∧
        s'.value = s.value) := by
  constructor
  · intro s' h
    obtain ⟨p', hp', hc, hs'⟩ := buy_ok_inv s a q s' h
    rw [hp] at hp'
    injection hp' with hpp
    subst hpp
    subst hs'
    refine ⟨rfl, ?_, ?_⟩
    · simp [PortfolioSimulator.holding, dFind_dSet_self, dGet_fst]
    · rcases get_cases s.current_prices a p hp with ⟨rfl, rfl⟩ | ⟨rfl, rfl⟩
      · have hother : dFind (dSet (dGet s.assets "LKOH").2 "LKOH"
            ((dGet s.assets "LKOH").1 + q)) "SBER" = dFind s.assets "SBER" := by
          rw [dFind_dSet_other _ _ _ _ (by decide),
            dFind_dGet_other _ _ _ (by decide)]
        simp only [dGet_fst] at hother
        rw [value_eq, value_eq]
        simp [PortfolioSimulator.holding, dFind_dSet_self, dGet_fst, hother]
        push_cast
        ring
      · have hother : dFind (dSet (dGet s.assets "SBER").2 "SBER"
            ((dGet s.assets "SBER").1 + q)) "LKOH" = dFind s.assets "LKOH" := by
          rw [dFind_dSet_other _ _ _ _ (by decide),
            dFind_dGet_other _ _ _ (by decide)]
        simp only [dGet_fst] at hother
        rw [value_eq, value_eq]
        simp [PortfolioSimulator.holding, dFind_dSet_self, dGet_fst, hother]
        push_cast
        ring
  · intro s' h
    obtain ⟨p', hcont, hqty, hp', hs'⟩ := sell_ok_inv s a q s' h
    rw [hp] at hp'
    injection hp' with hpp
    subst hpp
    subst hs'
    refine ⟨rfl, ?_, ?_⟩
    · simp [PortfolioSimulator.holding, dFind_dSet_self]
    · rcases get_cases s.current_prices a p hp with ⟨rfl, rfl⟩ | ⟨rfl, rfl⟩
      · have hother : dFind (dSet s.assets "LKOH" (s.holding "LKOH" - q)) "SBER"
            = dFind s.assets "SBER" := dFind_dSet_other _ _ _ _ (by decide)
        simp only [PortfolioSimulator.holding] at hother
        rw [value_eq, value_eq]
        simp [PortfolioSimulator.holding, dFind_dSet_self, hother]
        push_cast
        ring
      · have hother : dFind (dSet s.assets "SBER" (s.holding "SBER" - q)) "LKOH"
            = dFind s.assets "LKOH" := dFind_dSet_other _ _ _ _ (by decide)
        simp only [PortfolioSimulator.holding] at hother
        rw [value_eq, value_eq]
        simp [PortfolioSimulator.holding, dFind_dSet_self, hother]
        push_cast
        ring

theorem trade_equations_value_conserved_witness :
    (∀ s', simStart.buy "SBER" 100 = .ok s' →
        s'.cash = simStart.cash - 255 * ((100 : Int) : Dec) ∧
        s'.holding "SBER" = simStart.holding "SBER" + 100 ∧
        s'.value = simStart.value) ∧
    (∀ s', simStart.sell "SBER" 100 = .ok s' →
        s'.cash = simStart.cash + 255 * ((100 : Int) : Dec) ∧
        s'.holding "SBER" = simStart.holding "SBER" - 100 ∧
        s'.value = simStart.value) :=
  trade_equations_value_conserved simStart "SBER" 100 255 (by decide) rfl

theorem dFind_getD_nonneg (d : PyDict) (k : String)
    (hd : ∀ x ∈ d, 0 ≤ x.2) : 0 ≤ (dFind d k).getD 0 := by
  cases h : dFind d k with
  | none => simp
  | some v =>
      obtain ⟨x, hx, hv⟩ := dFind_entry d k v h
      simpa [hv] using hd x hx

/-- The state `buy("SBER", -1)` leaves the fresh default simulator in:
cash credited by 255, a negative holding of −1. -/
def simAfterNegBuy : PortfolioSimulator :=
  { simStart with cash := 100255, assets := [("LKOH", 0), ("SBER", -1)] }

/-- C2, counterexample: `buy` never checks the sign of the quantity, so
`buy("SBER", -1)` from the freshly constructed default simulator
*succeeds* — the negative cost passes the cash check — credits the cash
and leaves a negative holding of −1, contradicting the claim for
arbitrary integer quantities. -/
theorem negative_buy_drives_holdings_negative :
    simStart.buy "SBER" (-1) = .ok simAfterNegBuy ∧
    simAfterNegBuy.holding "SBER" < 0 := by
  constructor
  · norm_num +decide [PortfolioSimulator.buy, simStart, simAfterNegBuy,
      AssetPrice.get, dGet, dFind, dSet, dContains]
  · decide

/-- C2, amended: for **non-negative** quantities the invariant holds: from
a state with non-negative cash, holdings and current prices, `buy` and
`sell` keep cash and every holding non-negative; a `buy` whose cost
exceeds the cash fails with the insufficient-cash error and a `sell`
exceeding the held quantity fails with the insufficient-holdings error,
in both cases without touching the state (the model returns only the
error; the source raises before any mutation).  For negative quantities
the code performs no check at all — see the counterexample. -/
theorem nonneg_preserved_for_nonneg_quantities (s : PortfolioSimulator)
    (a : String) (q : Int) (hq : 0 ≤ q) (hcash : 0 ≤ s.cash)
    (hassets : ∀ x ∈ s.assets, 0 ≤ x.2)
    (hpL : 0 ≤ s.current_prices.LKOH) (hpS : 0 ≤ s.current_prices.SBER) :
    (∀ s', s.buy a q = .ok s' → 0 ≤ s'.cash ∧ ∀ x ∈ s'.assets, 0 ≤ x.2) ∧
    (∀ s', s.sell a q = .ok s' → 0 ≤ s'.cash ∧ ∀ x ∈ s'.assets, 0 ≤ x.2) ∧
    (∀ p, s.current_prices.get a = some p → s.cash < p * (q : Dec) →
        s.buy a q = .error .notEnoughCash) ∧
    (dContains s.assets a = true → s.holding a < q →
        s.sell a q = .error .notEnoughAsset) := by
  refine ⟨?_, ?_, ?_, ?_⟩
  · intro s' h
    obtain ⟨p, hp, hc, hs'⟩ := buy_ok_inv s a q s' h
    subst hs'
    constructor
    · simpa using sub_nonneg.mpr (not_lt.mp hc)
    · have hval : 0 ≤ (dGet s.assets a).1 + q := by
        rw [dGet_fst]
        exact add_nonneg (dFind_getD_nonneg s.assets a hassets) hq
      exact dSet_entries _ a _ (fun v => 0 ≤ v)
        (dGet_entries s.assets a (fun v => 0 ≤ v) hassets le_rfl) hval
  · intro s' h
    obtain ⟨p, hcont, hqty, hp, hs'⟩ := sell_ok_inv s a q s' h
    subst hs'
    have hp0 : 0 ≤ p := by
      rcases get_cases s.current_prices a p hp with ⟨_, rfl⟩ | ⟨_, rfl⟩
      · exact hpL
      · exact hpS
    constructor
    · have : (0 : Dec) ≤ p * (q : Dec) :=
        mul_nonneg hp0 (by exact_mod_cast hq)
      simpa using add_nonneg hcash this
    · have hval : 0 ≤ s.holding a - q := sub_nonneg.mpr (not_lt.mp hqty)
      exact dSet_entries _ a _ (fun v => 0 ≤ v) hassets hval
  · intro p hp hlt
    unfold PortfolioSimulator.buy
    rw [hp]
    simp [hlt]
  · intro hcont hlt
    unfold PortfolioSimulator.holding at hlt
    unfold PortfolioSimulator.sell
    rw [if_neg (by simpa using hcont)]
    simp [hlt]

theorem nonneg_preserved_witness :
    (∀ s', simStart.buy "SBER" 5 = .ok s' →
        0 ≤ s'.cash ∧ ∀ x ∈ s'.assets, 0 ≤ x.2) ∧
    (∀ s', simStart.sell "SBER" 5 = .ok s' →
        0 ≤ s'.cash ∧ ∀ x ∈ s'.assets, 0 ≤ x.2) ∧
    (∀ p, simStart.current_prices.get "SBER" = some p →
        simStart.cash < p * ((5 : Int) : Dec) →
        simStart.buy "SBER" 5 = .error .notEnoughCash) ∧
    (dContains simStart.assets "SBER" = true → simStart.holding "SBER" < 5 →
        simStart.sell "SBER" 5 = .error .notEnoughAsset) :=
  nonneg_preserved_for_nonneg_quantities simStart "SBER" 5 (by decide)
    (by norm_num [simStart]) (by decide) (by norm_num [simStart])
    (by norm_num [simStart])
